import Mathlib

/-!
Verification of the pipeline-resolution-and-dispatch workflow.

This file gives a shallow embedding of the core logic of the repository's
scripts (`app.py`, `demo4.py`): pipeline catalog lookup (`get_id_by_name`),
pipeline dispatch (`_execute_pipeline` / `Activity_ExecutePipeline`), work
item reading (`get_workflow_detail` / `Activity_RetrieveWorkItem`) and the
durable three-step sequencer (`orchestrate_automated_devops`).

External collaborators (the Azure DevOps REST clients) are modelled as
function parameters returning `Except`: `Except.error` models a raised
exception at the collaborator boundary, which the embedded code catches
exactly where the Python code has a `try/except`.  Python strings are
`String`, integer identifiers are `Nat`, dictionaries of fields are
association lists.
-/

/-- Python `s.lower()`: per-character lowercasing of a string. -/
def lowerS (s : String) : String := ⟨s.data.map Char.toLower⟩

/-- Python `needle in hay` on lists of characters: `true` iff `needle`
occurs contiguously inside `hay` (the empty needle always occurs). -/
def listContains (needle : List Char) : List Char → Bool
  | [] => needle.isEmpty
  | c :: cs => needle.isPrefixOf (c :: cs) || listContains needle cs

/-- Python `needle in hay` on strings: substring containment. -/
def containsSub (hay needle : String) : Bool := listContains needle.data hay.data

/-- One entry of the pipeline catalog: Azure DevOps build definitions have an
integer `id` and a display `name` (`{id, name}` in the spec's data model). -/
structure PipelineDef where
  id : Nat
  name : String
  deriving DecidableEq

/-- The match test of `get_id_by_name` (`app.py` line 28, `demo4.py` line 108):
`target_name.lower() in pipeline.name.lower()`. -/
def nameMatches (pipeline : PipelineDef) (target_name : String) : Bool :=
  containsSub (lowerS pipeline.name) (lowerS target_name)

/-- The `for pipeline in json_data` loop of `get_id_by_name`
(`app.py` lines 27-31): return `str(pipeline.id)` of the first entry whose
name matches, else fall through to `"NotFound"`. -/
def findPipelineLoop (target_name : String) : List PipelineDef → String
  | [] => "NotFound"
  | pipeline :: rest =>
    if nameMatches pipeline target_name then toString pipeline.id
    else findPipelineLoop target_name rest

/-- `list_pipelines` (`app.py` lines 91-108): fetch the catalog from the
collaborator; any exception is caught and an empty list returned. -/
def list_pipelines (get_definitions : Except String (List PipelineDef)) :
    List PipelineDef :=
  match get_definitions with
  | Except.ok pipelines => pipelines
  | Except.error _ => []

/-- `get_id_by_name` (`app.py` lines 20-31, identically `demo4.py` lines
104-112): fetch the catalog via `list_pipelines`, then scan it in order for
the first case-insensitive substring match of `target_name`. -/
def get_id_by_name (get_definitions : Except String (List PipelineDef))
    (target_name : String) : String :=
  findPipelineLoop target_name (list_pipelines get_definitions)

/-- The request body `Build(definition={"id": pipeline_id}, parameters=...)`
constructed by `execute_pipeline` / `_execute_pipeline`. -/
structure Build where
  definitionId : String
  parameters : Option (List (String × String))
  deriving DecidableEq

/-- The collaborator's response to `queue_build`: the queued build record
with its assigned run identifier and URL. -/
structure QueuedBuild where
  id : Nat
  url : String
  deriving DecidableEq

/-- The dictionary `{"id": queued_build.id, "url": queued_build.url}` that
`_execute_pipeline` (`demo4.py` line 186) returns on success. -/
structure RunInfo where
  id : Nat
  url : String
  deriving DecidableEq

/-- `_execute_pipeline` (`demo4.py` lines 178-189): build the request, call
`queue_build` once, and return the essential run info; any exception is
caught and `None` returned.  The second component counts how many run
requests were submitted to the collaborator during the call. -/
def _execute_pipeline (queue_build : Build → Except String QueuedBuild)
    (pipeline_id : String) (parameters : Option (List (String × String))) :
    Option RunInfo × Nat :=
  match queue_build ⟨pipeline_id, parameters⟩ with
  | Except.ok queued_build => (some ⟨queued_build.id, queued_build.url⟩, 1)
  | Except.error _ => (none, 1)

/-- `Activity_ExecutePipeline` (`demo4.py` lines 293-305): call
`_execute_pipeline` (with `parameters=None`) and render the outcome as a
message string; the count of submitted run requests is threaded through. -/
def Activity_ExecutePipeline (queue_build : Build → Except String QueuedBuild)
    (pipeline_id : String) : String × Nat :=
  match _execute_pipeline queue_build pipeline_id none with
  | (some result, n) =>
    ("Pipeline " ++ pipeline_id ++ " queued successfully. Build ID: " ++
      toString result.id, n)
  | (none, n) => ("Failed to queue pipeline " ++ pipeline_id ++ ".", n)

/-- A work item record: an identifier and its `fields` dictionary
(`{id, fields: mapping}` in the spec's collaborator interface). -/
structure WorkItem where
  id : Nat
  fields : List (String × String)
  deriving DecidableEq

/-- Python `fields.get(key, default)` on the association-list model of the
fields dictionary. -/
def fieldsGet (fields : List (String × String)) (key dflt : String) : String :=
  match fields.lookup key with
  | some v => v
  | none => dflt

/-- Python `.replace('<div>', '')`: remove every non-overlapping occurrence
of the five characters `<div>`, scanning left to right. -/
def removeDivOpen : List Char → List Char
  | '<' :: 'd' :: 'i' :: 'v' :: '>' :: rest => removeDivOpen rest
  | c :: rest => c :: removeDivOpen rest
  | [] => []

/-- Python `.replace('</div>', '')`: remove every non-overlapping occurrence
of the six characters `</div>`, scanning left to right. -/
def removeDivClose : List Char → List Char
  | '<' :: '/' :: 'd' :: 'i' :: 'v' :: '>' :: rest => removeDivClose rest
  | c :: rest => c :: removeDivClose rest
  | [] => []

/-- The markup stripping `.replace('<div>', '').replace('</div>', '')`
applied to a description (`app.py` lines 50-51, `demo4.py` lines 128 and
231): first all `<div>` occurrences are removed, then all `</div>`
occurrences are removed from the intermediate result. -/
def stripDivs (s : String) : String :=
  ⟨removeDivClose (removeDivOpen s.data)⟩

/-- Decimal value of a digit string. -/
def digitsToNat (l : List Char) : Nat :=
  l.foldl (fun acc c => acc * 10 + (c.toNat - 48)) 0

/-- Python `int(s)` on a decimal string: `some` value when `s` is a
non-empty string of digits, `none` when `int` raises `ValueError`. -/
def pyIntOfString (s : String) : Option Nat :=
  if !s.data.isEmpty && s.data.all Char.isDigit then some (digitsToNat s.data)
  else none

/-- `_get_workitem_details` (`demo4.py` lines 191-201): convert the id with
`int(...)` (a `ValueError` is caught by the surrounding `except`, yielding
`[]`), call the work item tracking client, and return the records; any
exception is caught and an empty list returned. -/
def _get_workitem_details (get_work_items : Nat → Except String (List WorkItem))
    (workitem_id : String) : List WorkItem :=
  match pyIntOfString workitem_id with
  | none => []
  | some n =>
    match get_work_items n with
    | Except.ok work_items => work_items
    | Except.error _ => []

/-- `Activity_RetrieveWorkItem` (`demo4.py` lines 205-233): fetch the work
item records; if the list is truthy (non-empty), return the stripped
`System.Description` field of the first record (defaulting to the empty
string when the field is absent), else `"NotFound"`. -/
def Activity_RetrieveWorkItem (get_work_items : Nat → Except String (List WorkItem))
    (workitem_id : String) : String :=
  match _get_workitem_details get_work_items workitem_id with
  | workflow :: _ => stripDivs (fieldsGet workflow.fields "System.Description" "")
  | [] => "NotFound"

/-- `get_workitem_details` (`app.py` lines 128-146): like the demo4 helper
but the identifier is passed to the client as given (no `int(...)`). -/
def get_workitem_details (get_work_items : String → Except String (List WorkItem))
    (workitem_id : String) : List WorkItem :=
  match get_work_items workitem_id with
  | Except.ok work_items => work_items
  | Except.error _ => []

/-- `get_workflow_detail` (`app.py` lines 43-52): the `for` loop returns on
its first iteration, so the first record's stripped description is returned
when any record exists, else `"NotFound"`. -/
def get_workflow_detail (get_work_items : String → Except String (List WorkItem))
    (workflow_id : String) : String :=
  match get_workitem_details get_work_items workflow_id with
  | workflow :: _ => stripDivs (fieldsGet workflow.fields "System.Description" "")
  | [] => "NotFound"

/-- The dictionary returned by the orchestrator: a `status` of `"Failed"`
carries a `message`, a `status` of `"Completed"` carries a `result`. -/
structure OrchResult where
  status : String
  message : Option String
  result : Option String
  deriving DecidableEq

/-- The orchestrator's return value together with instrumentation: how many
times the second activity (resolve) and the third activity (dispatch) were
invoked during the run. -/
structure OrchOutput where
  retval : OrchResult
  analyzeCalls : Nat
  dispatchCalls : Nat
  deriving DecidableEq

/-- `orchestrate_automated_devops` (`demo4.py` lines 59-87): the three-step
durable sequencer.  The three activities are opaque string-to-string
functions (as the orchestrator sees them through `call_activity`).  The
guards mirror `if x == "NotFound" or not x` — for Python strings, `not x`
is `x == ""`.  After the third activity the orchestrator returns
`{"status": "Completed", "result": execution_result}` unconditionally. -/
def orchestrate_automated_devops
    (retrieveActivity analyzeActivity executeActivity : String → String)
    (workitem_input : String) : OrchOutput :=
  let retrieved_description := retrieveActivity workitem_input
  if retrieved_description = "NotFound" ∨ retrieved_description = "" then
    ⟨⟨"Failed", some ("Work item description not found for: " ++ workitem_input),
      none⟩, 0, 0⟩
  else
    let pipeline_id := analyzeActivity retrieved_description
    if pipeline_id = "NotFound" ∨ pipeline_id = "" then
      ⟨⟨"Failed", some ("Pipeline ID not found for description: " ++
        retrieved_description), none⟩, 1, 0⟩
    else
      let execution_result := executeActivity pipeline_id
      ⟨⟨"Completed", none, some execution_result⟩, 1, 1⟩

/-- The spec's `WorkflowRun` record: each field becomes non-`none` when the
corresponding step completes (`description` after step 1, `pipelineId`
after step 2, `dispatchResult` after step 3). -/
structure WorkflowRun where
  workItemId : String
  description : Option String
  pipelineId : Option String
  dispatchResult : Option String
  deriving DecidableEq

/-- The sequence of `WorkflowRun` states reached during one run of
`orchestrate_automated_devops`, in order: the initial state, then one state
per completed step, following exactly the orchestrator's guards
(a failed guard ends the run with no further state). -/
def orchestrate_trace
    (retrieveActivity analyzeActivity executeActivity : String → String)
    (workitem_input : String) : List WorkflowRun :=
  let s0 : WorkflowRun := ⟨workitem_input, none, none, none⟩
  let retrieved_description := retrieveActivity workitem_input
  if retrieved_description = "NotFound" ∨ retrieved_description = "" then [s0]
  else
    let s1 : WorkflowRun := ⟨workitem_input, some retrieved_description, none, none⟩
    let pipeline_id := analyzeActivity retrieved_description
    if pipeline_id = "NotFound" ∨ pipeline_id = "" then [s0, s1]
    else
      let s2 : WorkflowRun :=
        ⟨workitem_input, some retrieved_description, some pipeline_id, none⟩
      let execution_result := executeActivity pipeline_id
      let s3 : WorkflowRun :=
        ⟨workitem_input, some retrieved_description, some pipeline_id,
          some execution_result⟩
      [s0, s1, s2, s3]

/-- Modelled from the claim's words (not from the source), for comparison
with `stripDivs`: a single left-to-right scan of the original text that
removes every occurrence of `<div>` and of `</div>` and keeps every other
character unchanged and in order. -/
def stripBothScan : List Char → List Char
  | '<' :: 'd' :: 'i' :: 'v' :: '>' :: rest => stripBothScan rest
  | '<' :: '/' :: 'd' :: 'i' :: 'v' :: '>' :: rest => stripBothScan rest
  | c :: rest => c :: stripBothScan rest
  | [] => []

/-- String form of `stripBothScan`. -/
def stripBothS (s : String) : String := ⟨stripBothScan s.data⟩

/-! ## Helper lemmas -/

/-- A prefix of `a` is a prefix of `a ++ b`. -/
theorem listPrefixCheck_append (n : List Char) :
    ∀ a b : List Char, n.isPrefixOf a = true → n.isPrefixOf (a ++ b) = true := by
  induction n with
  | nil => intro a b _; cases a <;> simp [List.isPrefixOf]
  | cons x xs ih =>
    intro a b h
    cases a with
    | nil => simp [List.isPrefixOf] at h
    | cons y ys =>
      simp only [List.isPrefixOf, Bool.and_eq_true] at h
      simp only [List.cons_append, List.isPrefixOf, Bool.and_eq_true]
      exact ⟨h.1, ih ys b h.2⟩

/-- The empty needle occurs in every haystack. -/
theorem listContains_nil (l : List Char) : listContains [] l = true := by
  cases l with
  | nil => rfl
  | cons c cs => simp [listContains, List.isPrefixOf]

/-- An occurrence in `a` is an occurrence in `a ++ b`. -/
theorem listContains_append_left (n : List Char) :
    ∀ a b : List Char, listContains n a = true → listContains n (a ++ b) = true := by
  intro a
  induction a with
  | nil =>
    intro b h
    have hn : n = [] := by
      cases n with
      | nil => rfl
      | cons x xs => simp [listContains, List.isEmpty] at h
    subst hn
    exact listContains_nil b
  | cons x xs ih =>
    intro b h
    simp only [listContains, Bool.or_eq_true] at h
    rcases h with h | h
    · simp only [List.cons_append, listContains, Bool.or_eq_true]
      exact Or.inl (listPrefixCheck_append n (x :: xs) b h)
    · simp only [List.cons_append, listContains, Bool.or_eq_true]
      exact Or.inr (ih b h)

/-- Substring containment survives appending on the right. -/
theorem containsSub_append_left (a b n : String) (h : containsSub a n = true) :
    containsSub (a ++ b) n = true := by
  unfold containsSub at h ⊢
  rw [String.data_append]
  exact listContains_append_left n.data a.data b.data h

/-- A text with no `<div>` occurrence passes through `removeDivOpen`
unchanged. -/
theorem removeDivOpen_eq_self (l : List Char)
    (h : listContains "<div>".data l = false) : removeDivOpen l = l := by
  induction l using removeDivOpen.induct with
  | case1 rest ih =>
    exfalso
    simp [listContains, List.isPrefixOf] at h
  | case2 c rest hne ih =>
    simp only [listContains, Bool.or_eq_false_iff] at h
    rw [removeDivOpen.eq_def]
    split
    · rename_i rest' heq
      exact absurd heq (by intro hcontra; cases hcontra; exact hne rest' rfl rfl)
    · rename_i x1 c' rest' hno heq
      cases heq
      rw [ih h.2]
    · rename_i x1 heq
      simp at heq
  | case3 => rfl

/-- A text with no `</div>` occurrence passes through `removeDivClose`
unchanged. -/
theorem removeDivClose_eq_self (l : List Char)
    (h : listContains "</div>".data l = false) : removeDivClose l = l := by
  induction l using removeDivClose.induct with
  | case1 rest ih =>
    exfalso
    simp [listContains, List.isPrefixOf] at h
  | case2 c rest hne ih =>
    simp only [listContains, Bool.or_eq_false_iff] at h
    rw [removeDivClose.eq_def]
    split
    · rename_i rest' heq
      exact absurd heq (by intro hcontra; cases hcontra; exact hne rest' rfl rfl)
    · rename_i x1 c' rest' hno heq
      cases heq
      rw [ih h.2]
    · rename_i x1 heq
      simp at heq
  | case3 => rfl

/-! ## Claim theorems -/

/-- C1: for every catalog and every intent string, `get_id_by_name` (the
resolve operation) returns the identifier, as a string, of the first
pipeline in catalog order whose name contains the intent string as a
case-insensitive substring, and returns the `"NotFound"` sentinel if the
catalog is empty or no entry matches; a later match is never returned when
an earlier entry also matches. -/
theorem get_id_by_name_first_match (catalog : List PipelineDef) (s : String) :
    ((∀ p ∈ catalog, nameMatches p s = false)
      ∧ get_id_by_name (Except.ok catalog) s = "NotFound")
    ∨ (∃ (i : Nat) (p : PipelineDef), catalog[i]? = some p ∧ nameMatches p s = true
        ∧ get_id_by_name (Except.ok catalog) s = toString p.id
        ∧ ∀ (j : Nat) (q : PipelineDef), j < i → catalog[j]? = some q →
            nameMatches q s = false) := by
  simp only [get_id_by_name, list_pipelines]
  induction catalog with
  | nil => exact Or.inl ⟨by simp, rfl⟩
  | cons p rest ih =>
    cases hp : nameMatches p s with
    | true =>
      refine Or.inr ⟨0, p, by simp, hp, ?_, ?_⟩
      · simp [findPipelineLoop, hp]
      · intro j q hj _
        omega
    | false =>
      rcases ih with ⟨hall, hres⟩ | ⟨i, q, hget, hm, hres, hmin⟩
      · refine Or.inl ⟨?_, ?_⟩
        · intro r hr
          rcases List.mem_cons.mp hr with rfl | hr
          · exact hp
          · exact hall r hr
        · simp [findPipelineLoop, hp, hres]
      · refine Or.inr ⟨i + 1, q, by simpa using hget, hm, ?_, ?_⟩
        · simp [findPipelineLoop, hp, hres]
        · intro j r hj hjget
          cases j with
          | zero =>
            have : r = p := by simpa using hjget.symm
            subst this
            exact hp
          | succ j' =>
            exact hmin j' r (by omega) (by simpa using hjget)

/-- C6: when the catalog collaborator raises, `get_id_by_name` behaves
exactly as on an empty catalog: it returns the `"NotFound"` sentinel (and,
its return type being `String`, no exception escapes), so the caller cannot
distinguish a collaborator error from no match. -/
theorem get_id_by_name_error_like_empty (e : String) (target_name : String) :
    get_id_by_name (Except.error e) target_name = "NotFound"
    ∧ get_id_by_name (Except.error e) target_name
        = get_id_by_name (Except.ok []) target_name :=
  ⟨rfl, rfl⟩

/-- C10 counterexample: on `"</di<div>v>"` the code's two sequential
replacements yield `""`, while removing the occurrences of the two tags
present in the original text and keeping every other character (the claim's
wording, formalized by `stripBothS`) yields `"</div>"`: the first pass's
removal creates a new `</div>` that the second pass also deletes, so
characters outside the original occurrences are not preserved. -/
theorem stripDivs_not_plain_occurrence_removal :
    stripDivs "</di<div>v>" = ""
    ∧ stripBothS "</di<div>v>" = "</div>"
    ∧ stripDivs "</di<div>v>" ≠ stripBothS "</di<div>v>" :=
  ⟨rfl, rfl, by decide⟩

/-- C10 (amended): the stripping is two sequential passes — all occurrences
of `<div>` are removed first, then all occurrences of `</div>` are removed
from the intermediate result.  A description containing neither `<div>` nor
`</div>` as a substring (in particular one carrying only other markup tags)
is returned completely unchanged; but when the first pass's removals create
a new `</div>` occurrence, the second pass removes it too, so characters
outside the original occurrences are not always preserved. -/
theorem stripDivs_id_of_no_tag (s : String)
    (h1 : listContains "<div>".data s.data = false)
    (h2 : listContains "</div>".data s.data = false) :
    stripDivs s = s := by
  unfold stripDivs
  rw [removeDivOpen_eq_self s.data h1, removeDivClose_eq_self s.data h2]

/-- Witness for `stripDivs_id_of_no_tag`: a description with other markup
tags but no div tags is returned unchanged. -/
theorem stripDivs_id_of_no_tag_witness :
    listContains "<div>".data "Deploy <b>now</b> & run".data = false
    ∧ listContains "</div>".data "Deploy <b>now</b> & run".data = false
    ∧ stripDivs "Deploy <b>now</b> & run" = "Deploy <b>now</b> & run" :=
  ⟨by decide, by decide,
    stripDivs_id_of_no_tag "Deploy <b>now</b> & run" (by decide) (by decide)⟩

/-- C4: if step 1 (read work item) or step 2 (resolve pipeline) yields the
`"NotFound"` sentinel, the sequencer terminates in the `"Failed"` state with
a reason mentioning `"not found"`, and the dispatcher activity is never
invoked in that workflow run (zero dispatch calls). -/
theorem sequencer_short_circuits_on_notfound
    (retrieveActivity analyzeActivity executeActivity : String → String)
    (wid : String)
    (h : retrieveActivity wid = "NotFound"
        ∨ analyzeActivity (retrieveActivity wid) = "NotFound") :
    (orchestrate_automated_devops retrieveActivity analyzeActivity
        executeActivity wid).retval.status = "Failed"
    ∧ (∃ m, (orchestrate_automated_devops retrieveActivity analyzeActivity
          executeActivity wid).retval.message = some m
        ∧ containsSub m "not found" = true)
    ∧ (orchestrate_automated_devops retrieveActivity analyzeActivity
        executeActivity wid).dispatchCalls = 0 := by
  by_cases h1 : retrieveActivity wid = "NotFound" ∨ retrieveActivity wid = ""
  · simp only [orchestrate_automated_devops]
    rw [if_pos h1]
    refine ⟨rfl, ⟨_, rfl, ?_⟩, rfl⟩
    exact containsSub_append_left "Work item description not found for: " wid
      "not found" (by decide)
  · have h2 : analyzeActivity (retrieveActivity wid) = "NotFound" := by
      rcases h with h | h
      · exact absurd (Or.inl h) h1
      · exact h
    simp only [orchestrate_automated_devops]
    rw [if_neg h1, if_pos (Or.inl h2)]
    refine ⟨rfl, ⟨_, rfl, ?_⟩, rfl⟩
    exact containsSub_append_left "Pipeline ID not found for description: "
      (retrieveActivity wid) "not found" (by decide)

/-- Witness for `sequencer_short_circuits_on_notfound`: a retrieve activity
returning the sentinel makes the run fail with zero dispatch calls. -/
theorem sequencer_short_circuits_on_notfound_witness :
    (orchestrate_automated_devops (fun _ => "NotFound") (fun d => d) (fun d => d)
        "41").retval.status = "Failed"
    ∧ (orchestrate_automated_devops (fun _ => "NotFound") (fun d => d) (fun d => d)
        "41").dispatchCalls = 0 :=
  ⟨(sequencer_short_circuits_on_notfound (fun _ => "NotFound") (fun d => d)
      (fun d => d) "41" (Or.inl rfl)).1,
    (sequencer_short_circuits_on_notfound (fun _ => "NotFound") (fun d => d)
      (fun d => d) "41" (Or.inl rfl)).2.2⟩

/-- C9: the sequencer's first two guards treat an empty (falsy) step result
exactly like the `"NotFound"` sentinel: an empty retrieved description fails
the run before the resolve and dispatch activities are invoked, and an empty
resolved pipeline identifier fails the run before the dispatch activity is
invoked, even though neither component returned `"NotFound"`. -/
theorem sequencer_empty_result_guard
    (retrieveActivity analyzeActivity executeActivity : String → String)
    (wid : String) :
    (retrieveActivity wid = "" →
      (orchestrate_automated_devops retrieveActivity analyzeActivity
          executeActivity wid).retval.status = "Failed"
      ∧ (orchestrate_automated_devops retrieveActivity analyzeActivity
          executeActivity wid).analyzeCalls = 0
      ∧ (orchestrate_automated_devops retrieveActivity analyzeActivity
          executeActivity wid).dispatchCalls = 0)
    ∧ (retrieveActivity wid ≠ "NotFound" → retrieveActivity wid ≠ "" →
        analyzeActivity (retrieveActivity wid) = "" →
        (orchestrate_automated_devops retrieveActivity analyzeActivity
            executeActivity wid).retval.status = "Failed"
        ∧ (orchestrate_automated_devops retrieveActivity analyzeActivity
            executeActivity wid).dispatchCalls = 0) := by
  constructor
  · intro he
    simp only [orchestrate_automated_devops]
    rw [if_pos (Or.inr he)]
    exact ⟨rfl, rfl, rfl⟩
  · intro hn he ha
    simp only [orchestrate_automated_devops]
    rw [if_neg (by simp [hn, he]), if_pos (Or.inr ha)]
    exact ⟨rfl, rfl⟩

/-- Witness for `sequencer_empty_result_guard`: both guards exercised, once
with an empty description and once with an empty pipeline identifier. -/
theorem sequencer_empty_result_guard_witness :
    ((orchestrate_automated_devops (fun _ => "") (fun d => d) (fun d => d)
        "9").retval.status = "Failed"
      ∧ (orchestrate_automated_devops (fun _ => "") (fun d => d) (fun d => d)
          "9").analyzeCalls = 0
      ∧ (orchestrate_automated_devops (fun _ => "") (fun d => d) (fun d => d)
          "9").dispatchCalls = 0)
    ∧ ((orchestrate_automated_devops (fun _ => "desc") (fun _ => "") (fun d => d)
        "9").retval.status = "Failed"
      ∧ (orchestrate_automated_devops (fun _ => "desc") (fun _ => "") (fun d => d)
          "9").dispatchCalls = 0) :=
  ⟨(sequencer_empty_result_guard (fun _ => "") (fun d => d) (fun d => d) "9").1 rfl,
    (sequencer_empty_result_guard (fun _ => "desc") (fun _ => "") (fun d => d)
      "9").2 (by decide) (by decide) rfl⟩

/-- C7: every `WorkflowRun` state reachable in a run of the sequencer has
its fields populated strictly in order description → pipelineId →
dispatchResult: a later field is never set while an earlier one is still
`none`. -/
theorem workflow_run_fields_in_order
    (retrieveActivity analyzeActivity executeActivity : String → String)
    (wid : String) (r : WorkflowRun)
    (hr : r ∈ orchestrate_trace retrieveActivity analyzeActivity
        executeActivity wid) :
    (r.pipelineId ≠ none → r.description ≠ none)
    ∧ (r.dispatchResult ≠ none → r.pipelineId ≠ none) := by
  simp only [orchestrate_trace] at hr
  split at hr
  · simp only [List.mem_singleton] at hr
    subst hr
    simp
  · split at hr
    · simp only [List.mem_cons, List.not_mem_nil, or_false] at hr
      rcases hr with rfl | rfl <;> simp
    · simp only [List.mem_cons, List.not_mem_nil, or_false] at hr
      rcases hr with rfl | rfl | rfl | rfl <;> simp

/-- Witness for `workflow_run_fields_in_order`: the state reached after a
successful step 1 in a run whose step 2 fails. -/
theorem workflow_run_fields_in_order_witness :
    ((⟨"1", some "d", none, none⟩ : WorkflowRun).pipelineId ≠ none →
      (⟨"1", some "d", none, none⟩ : WorkflowRun).description ≠ none)
    ∧ ((⟨"1", some "d", none, none⟩ : WorkflowRun).dispatchResult ≠ none →
      (⟨"1", some "d", none, none⟩ : WorkflowRun).pipelineId ≠ none) :=
  workflow_run_fields_in_order (fun _ => "d") (fun _ => "NotFound") (fun d => d)
    "1" ⟨"1", some "d", none, none⟩ (by decide)

/-- C2 counterexample: with a dispatcher whose collaborator fails (so the
dispatch activity reports its failure text), the sequencer still terminates
with status `"Completed"`, carrying the failure text — not the `"Failed"`
state with the dispatcher's detail, and not the run identifier.  This
refutes the claim that a failed dispatch yields a `"Failed"` terminal state
and that `"Completed"` is never reported when the dispatch failed. -/
theorem orchestrate_completed_despite_failed_dispatch :
    (orchestrate_automated_devops (fun _ => "Run VM-Provisioning-Pipeline now")
        (fun _ => "12")
        (fun pid => (Activity_ExecutePipeline (fun _ => Except.error "HTTP 500")
          pid).1)
        "42").retval.status = "Completed"
    ∧ (orchestrate_automated_devops (fun _ => "Run VM-Provisioning-Pipeline now")
        (fun _ => "12")
        (fun pid => (Activity_ExecutePipeline (fun _ => Except.error "HTTP 500")
          pid).1)
        "42").retval.result = some "Failed to queue pipeline 12." :=
  ⟨rfl, rfl⟩

/-- C2 (amended): in the sequencer's third step the workflow always
terminates with status `"Completed"`, whose result is exactly the dispatch
activity's message string: when the collaborator queues the run the message
embeds the run identifier, and when the collaborator fails the message is
the activity's failure text — the terminal status does not reflect dispatch
failure. -/
theorem orchestrate_step3_always_completed
    (retrieveActivity analyzeActivity : String → String)
    (queue_build : Build → Except String QueuedBuild) (wid : String)
    (h1 : retrieveActivity wid ≠ "NotFound") (h2 : retrieveActivity wid ≠ "")
    (h3 : analyzeActivity (retrieveActivity wid) ≠ "NotFound")
    (h4 : analyzeActivity (retrieveActivity wid) ≠ "") :
    (orchestrate_automated_devops retrieveActivity analyzeActivity
        (fun pid => (Activity_ExecutePipeline queue_build pid).1)
        wid).retval.status = "Completed"
    ∧ (orchestrate_automated_devops retrieveActivity analyzeActivity
        (fun pid => (Activity_ExecutePipeline queue_build pid).1)
        wid).retval.result
      = some ((Activity_ExecutePipeline queue_build
          (analyzeActivity (retrieveActivity wid))).1)
    ∧ (∀ q, queue_build ⟨analyzeActivity (retrieveActivity wid), none⟩
          = Except.ok q →
        (Activity_ExecutePipeline queue_build
            (analyzeActivity (retrieveActivity wid))).1
          = "Pipeline " ++ analyzeActivity (retrieveActivity wid)
            ++ " queued successfully. Build ID: " ++ toString q.id)
    ∧ (∀ e, queue_build ⟨analyzeActivity (retrieveActivity wid), none⟩
          = Except.error e →
        (Activity_ExecutePipeline queue_build
            (analyzeActivity (retrieveActivity wid))).1
          = "Failed to queue pipeline "
            ++ analyzeActivity (retrieveActivity wid) ++ ".") := by
  refine ⟨?_, ?_, ?_, ?_⟩
  · simp only [orchestrate_automated_devops]
    rw [if_neg (by simp [h1, h2]), if_neg (by simp [h3, h4])]
  · simp only [orchestrate_automated_devops]
    rw [if_neg (by simp [h1, h2]), if_neg (by simp [h3, h4])]
  · intro q hq
    unfold Activity_ExecutePipeline _execute_pipeline
    rw [hq]
  · intro e he
    unfold Activity_ExecutePipeline _execute_pipeline
    rw [he]

/-- Witness for `orchestrate_step3_always_completed`: concrete activities
with a failing collaborator yield a Completed terminal status carrying the
dispatch failure text. -/
theorem orchestrate_step3_always_completed_witness :
    (orchestrate_automated_devops (fun _ => "provision a vm") (fun _ => "12")
        (fun pid => (Activity_ExecutePipeline (fun _ => Except.error "timeout")
          pid).1)
        "42").retval.status = "Completed"
    ∧ (Activity_ExecutePipeline (fun _ => Except.error "timeout") "12").1
        = "Failed to queue pipeline 12." :=
  ⟨(orchestrate_step3_always_completed (fun _ => "provision a vm")
      (fun _ => "12") (fun _ => Except.error "timeout") "42"
      (by decide) (by decide) (by decide) (by decide)).1,
    (orchestrate_step3_always_completed (fun _ => "provision a vm")
      (fun _ => "12") (fun _ => Except.error "timeout") "42"
      (by decide) (by decide) (by decide) (by decide)).2.2.2 "timeout" rfl⟩

/-- C5: a single dispatch call submits exactly one run request to the
collaborator (for every pipeline identifier and parameters), and on any
collaborator failure the dispatch activity returns its failure detail
string — the helper returns the `none` sentinel and, the return types being
plain values, no exception escapes the dispatcher boundary. -/
theorem dispatch_submits_once_and_fails_closed
    (queue_build : Build → Except String QueuedBuild) (pipeline_id : String)
    (parameters : Option (List (String × String))) :
    (_execute_pipeline queue_build pipeline_id parameters).2 = 1
    ∧ (Activity_ExecutePipeline queue_build pipeline_id).2 = 1
    ∧ (∀ e, queue_build ⟨pipeline_id, none⟩ = Except.error e →
        (_execute_pipeline queue_build pipeline_id none).1 = none
        ∧ (Activity_ExecutePipeline queue_build pipeline_id).1
            = "Failed to queue pipeline " ++ pipeline_id ++ ".") := by
  refine ⟨?_, ?_, ?_⟩
  · unfold _execute_pipeline
    cases queue_build ⟨pipeline_id, parameters⟩ <;> rfl
  · unfold Activity_ExecutePipeline _execute_pipeline
    cases queue_build ⟨pipeline_id, none⟩ <;> rfl
  · intro e he
    constructor
    · unfold _execute_pipeline
      rw [he]
    · unfold Activity_ExecutePipeline _execute_pipeline
      rw [he]

/-- Witness for `dispatch_submits_once_and_fails_closed`: one submission and
the failure text on a concrete failing collaborator. -/
theorem dispatch_submits_once_and_fails_closed_witness :
    (_execute_pipeline (fun _ => Except.error "boom") "12" none).2 = 1
    ∧ (Activity_ExecutePipeline (fun _ => Except.error "boom") "12").1
        = "Failed to queue pipeline 12." :=
  ⟨(dispatch_submits_once_and_fails_closed (fun _ => Except.error "boom")
      "12" none).1,
    ((dispatch_submits_once_and_fails_closed (fun _ => Except.error "boom")
      "12" none).2.2 "boom" rfl).2⟩

/-- C3 counterexample: a ticket that exists but has no description field is
read back as the empty string `""`, not as the `"NotFound"` sentinel the
claim requires. -/
theorem retrieve_missing_description_not_notfound :
    Activity_RetrieveWorkItem (fun _ => Except.ok [⟨7, []⟩]) "7" = ""
    ∧ Activity_RetrieveWorkItem (fun _ => Except.ok [⟨7, []⟩]) "7"
        ≠ "NotFound" :=
  ⟨rfl, by decide⟩

/-- C3 (amended): `Activity_RetrieveWorkItem` returns the `"NotFound"`
sentinel when the ticket lookup yields no record — the ticket does not
exist, the identifier is not numeric, or the collaborator call errors; when
the ticket exists but has no description field it returns the empty string
(which the sequencer's falsy guard then treats like the sentinel); and when
a description is present it returns the stripped description text. -/
theorem Activity_RetrieveWorkItem_result_cases
    (get_work_items : Nat → Except String (List WorkItem)) (wid : String) :
    (_get_workitem_details get_work_items wid = [] →
      Activity_RetrieveWorkItem get_work_items wid = "NotFound")
    ∧ (∀ n e, pyIntOfString wid = some n → get_work_items n = Except.error e →
        Activity_RetrieveWorkItem get_work_items wid = "NotFound")
    ∧ (∀ w rest, _get_workitem_details get_work_items wid = w :: rest →
        w.fields.lookup "System.Description" = none →
        Activity_RetrieveWorkItem get_work_items wid = "")
    ∧ (∀ w rest d, _get_workitem_details get_work_items wid = w :: rest →
        w.fields.lookup "System.Description" = some d →
        Activity_RetrieveWorkItem get_work_items wid = stripDivs d) := by
  refine ⟨?_, ?_, ?_, ?_⟩
  · intro h
    unfold Activity_RetrieveWorkItem
    rw [h]
  · intro n e hn he
    unfold Activity_RetrieveWorkItem _get_workitem_details
    rw [hn]
    dsimp only
    rw [he]
  · intro w rest h hf
    unfold Activity_RetrieveWorkItem
    rw [h]
    unfold fieldsGet
    dsimp only
    rw [hf]
    rfl
  · intro w rest d h hf
    unfold Activity_RetrieveWorkItem
    rw [h]
    unfold fieldsGet
    dsimp only
    rw [hf]

/-- Witness for `Activity_RetrieveWorkItem_result_cases`: a collaborator
error yields the sentinel, and an existing ticket without the description
field yields the empty string. -/
theorem Activity_RetrieveWorkItem_result_cases_witness :
    Activity_RetrieveWorkItem (fun _ => Except.error "auth") "7" = "NotFound"
    ∧ Activity_RetrieveWorkItem
        (fun _ => Except.ok [⟨9, [("System.Title", "t")]⟩]) "9" = "" :=
  ⟨(Activity_RetrieveWorkItem_result_cases (fun _ => Except.error "auth")
      "7").2.1 7 "auth" rfl rfl,
    (Activity_RetrieveWorkItem_result_cases
      (fun _ => Except.ok [⟨9, [("System.Title", "t")]⟩]) "9").2.2.1
      ⟨9, [("System.Title", "t")]⟩ [] rfl rfl⟩

/-- C8: reading a work item whose `System.Description` field holds the
value `"<div>Hello</div>"` returns the string `"Hello"`: the literal
wrapper tags are stripped before the description is returned. -/
theorem retrieve_strips_div_wrapper
    (get_work_items : Nat → Except String (List WorkItem)) (wid : String)
    (w : WorkItem) (rest : List WorkItem)
    (h : _get_workitem_details get_work_items wid = w :: rest)
    (hd : fieldsGet w.fields "System.Description" "" = "<div>Hello</div>") :
    Activity_RetrieveWorkItem get_work_items wid = "Hello" := by
  unfold Activity_RetrieveWorkItem
  rw [h]
  dsimp only
  rw [hd]
  rfl

/-- Witness for `retrieve_strips_div_wrapper`: a concrete work item whose
description field holds `"<div>Hello</div>"` is read back as `"Hello"`. -/
theorem retrieve_strips_div_wrapper_witness :
    Activity_RetrieveWorkItem
      (fun _ => Except.ok [⟨42, [("System.Description", "<div>Hello</div>")]⟩])
      "42" = "Hello" :=
  retrieve_strips_div_wrapper
    (fun _ => Except.ok [⟨42, [("System.Description", "<div>Hello</div>")]⟩])
    "42" ⟨42, [("System.Description", "<div>Hello</div>")]⟩ [] rfl rfl
